import Mathlib

/-!
Verification development for the YouTube live-chat streaming crate
(`src/youtube/mod.rs`).  The wire-format data structures come from the
crate's data-binding module (`types`), which is not part of the core
source file; their shapes are reconstructed from the fields the core
uses together with the specification's data model (§3).  All control
flow (page decoding, the message iterator, the stream orchestrator) is
translated directly from `mod.rs`.

Rust panics (`unwrap`, out-of-bounds indexing, `unimplemented!`) are
modelled explicitly with the `RunResult.panic` outcome; fallible
operations return `RunResult.err` carrying a `YouTubeError`.
-/

namespace Brainrot

/-- The error enum `YouTubeError` from `mod.rs` (lines 27-51).  Payloads
irrelevant to control flow (regex/deserialization/request errors) are
dropped or simplified. -/
inductive YouTubeError where
  | regexFailure
  | deserialization
  | missingContinuationContents
  | endOfContinuation
  | timedOut
  | badStatus (code : Nat)
  | generalRequest
  | notStream (id : String)
  | noInnerTubeKey
  | noChatContinuation
  | urlParseFailure
deriving DecidableEq, Repr

/-- Outcome of running a piece of Rust code: normal value, `Err`, or panic
(`unwrap` on `None`/`Err`, out-of-bounds index, `unimplemented!`). -/
inductive RunResult (α : Type) where
  | ok (value : α)
  | err (e : YouTubeError)
  | panic
deriving DecidableEq, Repr

/-- `RequestOptions` (lines 77-82). -/
structure RequestOptions where
  api_key : String
  client_version : String
  live_status : Bool
deriving DecidableEq, Repr

/-- Modelled from the spec: invalidation id carried by an invalidation
continuation (the push-notification topic, §3 RawPage). -/
structure InvalidationId where
  topic : String
deriving DecidableEq, Repr

/-- Modelled from the spec: the *invalidation* continuation descriptor
(live mode; push topic + next token, §3 RawPage). -/
structure InvalidationContinuationData where
  continuation : String
  invalidation_id : InvalidationId
deriving DecidableEq, Repr

/-- Modelled from the spec: the *timed* continuation descriptor (live
fallback; next token only, §3 RawPage). -/
structure TimedContinuationData where
  continuation : String
deriving DecidableEq, Repr

/-- Modelled from the spec: the *replay* continuation descriptor (next
token only, §3 RawPage). -/
structure LiveChatReplayContinuationData where
  continuation : String
deriving DecidableEq, Repr

/-- Modelled from the spec: one entry of the `continuations` array of a
decoded page; the three mode-dependent descriptors are each optional. -/
structure Continuation where
  invalidation_continuation_data : Option InvalidationContinuationData
  timed_continuation_data : Option TimedContinuationData
  live_chat_replay_continuation_data : Option LiveChatReplayContinuationData
deriving DecidableEq, Repr

/-- Modelled from the spec: a single avatar thumbnail (its URL). -/
structure Thumbnail where
  url : String
deriving DecidableEq, Repr

/-- Modelled from the spec: the author photo, an ordered list of
thumbnails, smallest to largest (§3 RawAddItem). -/
structure AuthorPhoto where
  thumbnails : List Thumbnail
deriving DecidableEq, Repr

/-- Modelled from the spec: the author's display name as simple text. -/
structure AuthorName where
  simple_text : String
deriving DecidableEq, Repr

/-- Modelled from the spec: epoch-microsecond timestamp; the binding
layer's `timestamp_millis()` converts it to milliseconds. -/
structure TimestampUsec where
  usec : Int
deriving DecidableEq, Repr

/-- Microseconds to milliseconds, as used at `mod.rs` line 290. -/
def TimestampUsec.timestamp_millis (t : TimestampUsec) : Int :=
  t.usec / 1000

/-- Modelled from the spec: a single styled text/emoji segment of a chat
message (opaque to the core). -/
structure MessageRun where
  segment : String
deriving DecidableEq, Repr

/-- Modelled from the spec: the optional message body, a list of runs. -/
structure MessageBody where
  runs : List MessageRun
deriving DecidableEq, Repr

/-- Modelled from the spec: fields shared by the text and paid renderers
(author name/id/avatar, timestamp; §3 RawAddItem). -/
structure MessageRendererBase where
  author_name : Option AuthorName
  author_external_channel_id : String
  author_photo : AuthorPhoto
  timestamp_usec : TimestampUsec
deriving DecidableEq, Repr

/-- Modelled from the spec: the plain-text message renderer; `message` is
optional (absence means "not a displayable chat message"). -/
structure LiveChatTextMessageRenderer where
  message : Option MessageBody
  message_renderer_base : MessageRendererBase
deriving DecidableEq, Repr

/-- Modelled from the spec: the paid (super) message renderer, which
wraps a plain-text renderer (§3 RawAddItem). -/
structure LiveChatPaidMessageRenderer where
  live_chat_text_message_renderer : LiveChatTextMessageRenderer
deriving DecidableEq, Repr

/-- Modelled from the spec: the item of an add-chat-item action, with an
optional renderer of each kind (the binding layer uses optional fields
rather than a tagged union). -/
structure ChatItem where
  live_chat_text_message_renderer : Option LiveChatTextMessageRenderer
  live_chat_paid_message_renderer : Option LiveChatPaidMessageRenderer
deriving DecidableEq, Repr

/-- Modelled from the spec: an add-chat-item action. -/
structure AddChatItemAction where
  item : ChatItem
deriving DecidableEq, Repr

/-- Modelled from the spec: one inner action of a replay wrapper; the
iterator only ever looks at its `add_chat_item_action` field. -/
structure ReplayInnerAction where
  add_chat_item_action : Option AddChatItemAction
deriving DecidableEq, Repr

/-- Modelled from the spec: a replay wrapper carrying a batch of actions
plus a single video offset in milliseconds (§3 RawAction). -/
structure ReplayChatItemAction where
  actions : List ReplayInnerAction
  video_offset_time_msec : Int
deriving DecidableEq, Repr

/-- Modelled from the spec: a raw action — either a replay wrapper or a
direct add-chat-item action (both optional fields, checked in that
order by the iterator). -/
structure Action where
  replay_chat_item_action : Option ReplayChatItemAction
  add_chat_item_action : Option AddChatItemAction
deriving DecidableEq, Repr

/-- Modelled from the spec: the `liveChatContinuation` object of a page:
an array of continuation descriptors and an optional action list. -/
structure LiveChatContinuation where
  continuations : List Continuation
  actions : Option (List Action)
deriving DecidableEq, Repr

/-- Modelled from the spec: `continuationContents` of a page. -/
structure ContinuationContents where
  live_chat_continuation : LiveChatContinuation
deriving DecidableEq, Repr

/-- Modelled from the spec: the decoded response payload of a chat-page
fetch; `continuationContents` may be entirely absent. -/
structure GetLiveChatResponse where
  continuation_contents : Option ContinuationContents
deriving DecidableEq, Repr

/-- `Author` (lines 132-136). -/
structure Author where
  display_name : String
  id : String
  avatar : String
deriving DecidableEq, Repr

/-- `ChatMessage` (lines 138-144), the normalized output record. -/
structure ChatMessage where
  runs : List MessageRun
  is_super : Bool
  author : Author
  timestamp : Int
  time_delta : Option Int
deriving DecidableEq, Repr

/-- `YouTubeChatPageProcessor` (lines 146-151): the FIFO action queue,
the next continuation token and the (live-only) push topic.  The
`RequestOptions` reference is passed separately where needed; the
`Mutex` around the queue is single-consumer ceremony and modelled as a
plain list. -/
structure YouTubeChatPageProcessor where
  actions : List Action
  continuation_token : Option String
  signaler_topic : Option String
deriving DecidableEq, Repr

/-- `YouTubeChatPageProcessor::new` (lines 156-208): select the next
continuation token (live: invalidation preferred, timed fallback;
replay: replay descriptor), extract the push topic (live only), and
build the queue (live: missing action list becomes an empty queue;
replay: missing action list is `EndOfContinuation`).  A missing
`continuation_contents` is `MissingContinuationContents`; indexing
`continuations[0]` on an empty array is a panic. -/
def pageProcessorNew (response : GetLiveChatResponse) (opts : RequestOptions) :
    RunResult YouTubeChatPageProcessor :=
  if opts.live_status then
    match response.continuation_contents with
    | none => .err .missingContinuationContents
    | some cc =>
      match cc.live_chat_continuation.continuations with
      | [] => .panic
      | c :: _ =>
        let continuation_token : Option String :=
          match c.invalidation_continuation_data with
          | some inv => some inv.continuation
          | none =>
            match c.timed_continuation_data with
            | some td => some td.continuation
            | none => none
        let signaler_topic : Option String :=
          match c.invalidation_continuation_data with
          | some inv => some inv.invalidation_id.topic
          | none => none
        .ok { actions := cc.live_chat_continuation.actions.getD [],
              continuation_token, signaler_topic }
  else
    match response.continuation_contents with
    | none => .err .missingContinuationContents
    | some cc =>
      match cc.live_chat_continuation.continuations with
      | [] => .panic
      | c :: _ =>
        let continuation_token : Option String :=
          match c.live_chat_replay_continuation_data with
          | some rd => some rd.continuation
          | none => none
        match cc.live_chat_continuation.actions with
        | none => .err .endOfContinuation
        | some as => .ok { actions := as, continuation_token, signaler_topic := none }

/-- Renderer selection at materialization time (lines 268-274): the
plain-text renderer if present, else the paid renderer's wrapped
plain-text renderer, else nothing (`unimplemented!`). -/
def selectedRenderer (a : AddChatItemAction) : Option LiveChatTextMessageRenderer :=
  match a.item.live_chat_text_message_renderer with
  | some rd => some rd
  | none =>
    match a.item.live_chat_paid_message_renderer with
    | some pr => some pr.live_chat_text_message_renderer
    | none => none

/-- The eligibility filter of the iterator (lines 239-247 and 251-259):
the renderer chosen by the same if/else-if chain must have a present
`message`. -/
def eligibleSelect (a : AddChatItemAction) : Bool :=
  match selectedRenderer a with
  | some rd => rd.message.isSome
  | none => false

/-- One inner action of a replay wrapper passes the filter iff it is an
add-chat-item action accepted by `eligibleSelect` (lines 238-247). -/
def innerEligible (x : ReplayInnerAction) : Option AddChatItemAction :=
  match x.add_chat_item_action with
  | some add => if eligibleSelect add then some add else none
  | none => none

/-- The replay-wrapper inner loop (lines 233-249): scan the batch and
keep only the first action passing the filter (the `break` once
`next_action` is set). -/
def findFirstEligible : List ReplayInnerAction → Option AddChatItemAction
  | [] => none
  | x :: rest =>
    match innerEligible x with
    | some add => some add
    | none => findFirstEligible rest

/-- A direct action's contribution (lines 250-260): its add-chat-item
action when it passes the filter. -/
def directEligible (a : Action) : Option AddChatItemAction :=
  match a.add_chat_item_action with
  | some add => if eligibleSelect add then some add else none
  | none => none

/-- What one popped action selects (lines 231-260): a replay wrapper
contributes its first eligible inner action tagged with the wrapper's
video offset; a direct action contributes itself with no offset. -/
def selectAction (a : Action) : Option (AddChatItemAction × Option Int) :=
  match a.replay_chat_item_action with
  | some r => (findFirstEligible r.actions).map (fun add => (add, some r.video_offset_time_msec))
  | none => (directEligible a).map (fun add => (add, none))

/-- Message materialization (lines 266-292).  `none` is a panic: the
`unimplemented!` when neither renderer is present, the `unwrap` of the
absent message, or the out-of-bounds `thumbnails[len - 1]` on an empty
thumbnail list (modelled by `getLast?`). -/
def materialize (a : AddChatItemAction) (delta : Option Int) : Option ChatMessage :=
  match selectedRenderer a with
  | none => none
  | some rd =>
    match rd.message with
    | none => none
    | some body =>
      match rd.message_renderer_base.author_photo.thumbnails.getLast? with
      | none => none
      | some thumb =>
        some { runs := body.runs,
               is_super := a.item.live_chat_paid_message_renderer.isSome,
               author := { display_name :=
                             (rd.message_renderer_base.author_name.map
                               AuthorName.simple_text).getD
                               rd.message_renderer_base.author_external_channel_id,
                           id := rd.message_renderer_base.author_external_channel_id,
                           avatar := thumb.url },
               timestamp := rd.message_renderer_base.timestamp_usec.timestamp_millis,
               time_delta := delta }

/-- `<&YouTubeChatPageProcessor as Iterator>::next` (lines 227-293) on
the queue: pop actions until one selects an eligible item, then
materialize it; `ok none` is an exhausted queue, `panic` a
materialization panic.  Returns the produced message together with the
remaining queue. -/
def processorNext : List Action → RunResult (Option (ChatMessage × List Action))
  | [] => .ok none
  | a :: rest =>
    match selectAction a with
    | none => processorNext rest
    | some (add, delta) =>
      match materialize add delta with
      | none => .panic
      | some m => .ok (some (m, rest))

/-- Draining a processor completely (`for msg in &processor`, lines
335-337 and 343-345): repeated `next` until the queue is exhausted.  A
panic anywhere absorbs the run. -/
def drainAll : List Action → RunResult (List ChatMessage)
  | [] => .ok []
  | a :: rest =>
    match selectAction a with
    | none => drainAll rest
    | some (add, delta) =>
      match materialize add delta with
      | none => .panic
      | some m =>
        match drainAll rest with
        | .ok ms => .ok (m :: ms)
        | .err e => .err e
        | .panic => .panic

/-- `YouTubeChatPageProcessor::cont` (lines 215-221): `none` when there
is no continuation token; otherwise the outcome of fetching (scripted
here) and decoding the next page. -/
def contModel (p : YouTubeChatPageProcessor) (opts : RequestOptions)
    (fetch : Except YouTubeError GetLiveChatResponse) :
    Option (RunResult YouTubeChatPageProcessor) :=
  match p.continuation_token with
  | none => none
  | some _ =>
    some (match fetch with
      | .error e => .err e
      | .ok page => pageProcessorNew page opts)

/-- The continuation loop of `stream` (lines 339-358).  The script lists,
in order, the outcome of each page fetch triggered by a successful
signaler event; an exhausted script is a closed channel.  Per the
source: an absent token (`cont` returns `None`) breaks with no further
items; a fetch/decode error is logged and breaks with no further items
(it is *not* yielded); a successful page is drained and then
`signaler_topic.as_ref().unwrap()` refreshes the subscription —
a panic when the new page carried no invalidation descriptor. -/
def streamLoop (opts : RequestOptions) :
    YouTubeChatPageProcessor → List (Except YouTubeError GetLiveChatResponse) →
    RunResult (List (Except YouTubeError ChatMessage))
  | _, [] => .ok []
  | p, f :: fs =>
    match contModel p opts f with
    | none => .ok []
    | some (.err _) => .ok []
    | some .panic => .panic
    | some (.ok next) =>
      match drainAll next.actions with
      | .err e => .err e
      | .panic => .panic
      | .ok msgs =>
        match next.signaler_topic with
        | none => .panic
        | some _ =>
          match streamLoop opts next fs with
          | .ok rest => .ok (msgs.map Except.ok ++ rest)
          | .err e => .err e
          | .panic => .panic

/-- `stream` (lines 319-360), with the initial page fetch and the
signaler-event-driven continuation fetches scripted.  An initial fetch
error is returned from `stream` itself (`.err`).  Otherwise the topic
of the first page is extracted through a chain of `unwrap`s on
`continuation_contents`, `continuations[0]` and
`invalidation_continuation_data` (line 324) — each absent step is a
panic — then the first processor is built (`new(..).unwrap()`), its
queue drained with every message yielded as an `Ok` item, and the
continuation loop runs. -/
def streamModel (opts : RequestOptions)
    (initialFetch : Except YouTubeError GetLiveChatResponse)
    (script : List (Except YouTubeError GetLiveChatResponse)) :
    RunResult (List (Except YouTubeError ChatMessage)) :=
  match initialFetch with
  | .error e => .err e
  | .ok initial =>
    match initial.continuation_contents with
    | none => .panic
    | some cc =>
      match cc.live_chat_continuation.continuations with
      | [] => .panic
      | c :: _ =>
        match c.invalidation_continuation_data with
        | none => .panic
        | some _ =>
          match pageProcessorNew initial opts with
          | .err _ => .panic
          | .panic => .panic
          | .ok p =>
            match drainAll p.actions with
            | .err e => .err e
            | .panic => .panic
            | .ok msgs =>
              match streamLoop opts p script with
              | .ok rest => .ok (msgs.map Except.ok ++ rest)
              | .err e => .err e
              | .panic => .panic

/-- The pattern-match results `get_options_from_live_page` extracts from
the fetched watch-page body (lines 93-128).  The regex engine is an
external collaborator; each field records whether (and what) the
corresponding pattern matched: the `isLiveNow` marker, the `isReplay`
marker, the InnerTube API key capture, the client version capture, and
the mode-specific continuation captures ("Live chat" anchored vs "Top
chat replay" anchored). -/
structure PageScan where
  live_now : Bool
  is_replay : Bool
  api_key : Option String
  client_version : Option String
  live_continuation : Option String
  replay_continuation : Option String
deriving DecidableEq, Repr

/-- `get_options_from_live_page` (lines 84-131) after the HTTP fetch:
decide live/replay from the two markers in order (neither matching is
`NotStream`), require the API key (`NoInnerTubeKey`), default the
client version to "2.20230801.08.00", and require the mode-specific
continuation capture (`NoChatContinuation`). -/
def get_options_from_live_page (live_id : String) (scan : PageScan) :
    Except YouTubeError (RequestOptions × String) :=
  match (if scan.live_now then some true
         else if scan.is_replay then some false
         else none) with
  | none => .error (.notStream live_id)
  | some live_status =>
    match scan.api_key with
    | none => .error .noInnerTubeKey
    | some api_key =>
      let client_version := scan.client_version.getD "2.20230801.08.00"
      match (if live_status then scan.live_continuation else scan.replay_continuation) with
      | none => .error .noChatContinuation
      | some continuation =>
        .ok ({ api_key, client_version, live_status }, continuation)

/-! ### Concrete sample data for witnesses and counterexamples -/

def sampleBase : MessageRendererBase :=
  { author_name := some { simple_text := "Alice" },
    author_external_channel_id := "UC123",
    author_photo := { thumbnails := [{ url := "small.png" }, { url := "big.png" }] },
    timestamp_usec := { usec := 1234000 } }

def sampleTextRenderer : LiveChatTextMessageRenderer :=
  { message := some { runs := [{ segment := "hello" }] },
    message_renderer_base := sampleBase }

def sampleAdd : AddChatItemAction :=
  { item := { live_chat_text_message_renderer := some sampleTextRenderer,
              live_chat_paid_message_renderer := none } }

def sampleAction : Action :=
  { replay_chat_item_action := none, add_chat_item_action := some sampleAdd }

/-- An add-chat-item action whose renderer has no runs (ineligible). -/
def noRunsAdd : AddChatItemAction :=
  { item := { live_chat_text_message_renderer :=
                some { message := none, message_renderer_base := sampleBase },
              live_chat_paid_message_renderer := none } }

def noRunsAction : Action :=
  { replay_chat_item_action := none, add_chat_item_action := some noRunsAdd }

/-- A paid (super) message whose wrapped plain-text renderer has runs. -/
def samplePaidAdd : AddChatItemAction :=
  { item := { live_chat_text_message_renderer := none,
              live_chat_paid_message_renderer :=
                some { live_chat_text_message_renderer := sampleTextRenderer } } }

def samplePaidAction : Action :=
  { replay_chat_item_action := none, add_chat_item_action := some samplePaidAdd }

/-- An eligible add-chat-item action whose author has an empty thumbnail
list. -/
def noThumbAdd : AddChatItemAction :=
  { item := { live_chat_text_message_renderer :=
                some { message := some { runs := [{ segment := "hi" }] },
                       message_renderer_base :=
                         { author_name := none,
                           author_external_channel_id := "UC999",
                           author_photo := { thumbnails := [] },
                           timestamp_usec := { usec := 5000 } } },
              live_chat_paid_message_renderer := none } }

def noThumbAction : Action :=
  { replay_chat_item_action := none, add_chat_item_action := some noThumbAdd }

/-- A replay wrapper: one ineligible inner action, then two eligible
ones; offset 777 ms. -/
def sampleReplayAction : Action :=
  { replay_chat_item_action :=
      some { actions := [{ add_chat_item_action := some noRunsAdd },
                         { add_chat_item_action := some sampleAdd },
                         { add_chat_item_action := some samplePaidAdd }],
             video_offset_time_msec := 777 },
    add_chat_item_action := none }

def sampleInv : InvalidationContinuationData :=
  { continuation := "inv-token", invalidation_id := { topic := "topic-1" } }

def sampleTimed : TimedContinuationData := { continuation := "timed-token" }

/-- A live continuation entry carrying both descriptors. -/
def contBoth : Continuation :=
  { invalidation_continuation_data := some sampleInv,
    timed_continuation_data := some sampleTimed,
    live_chat_replay_continuation_data := none }

/-- A live continuation entry carrying only the timed descriptor. -/
def contTimedOnly : Continuation :=
  { invalidation_continuation_data := none,
    timed_continuation_data := some sampleTimed,
    live_chat_replay_continuation_data := none }

/-- A replay continuation entry. -/
def contReplay : Continuation :=
  { invalidation_continuation_data := none,
    timed_continuation_data := none,
    live_chat_replay_continuation_data := some { continuation := "replay-token" } }

def optsLive : RequestOptions :=
  { api_key := "key", client_version := "1.0", live_status := true }

def optsReplay : RequestOptions :=
  { api_key := "key", client_version := "1.0", live_status := false }

/-- A healthy live page: invalidation descriptor plus one eligible
action. -/
def livePage : GetLiveChatResponse :=
  { continuation_contents :=
      some { live_chat_continuation :=
               { continuations := [contBoth], actions := some [sampleAction] } } }

/-- A live page with only the timed descriptor and no actions. -/
def timedPage : GetLiveChatResponse :=
  { continuation_contents :=
      some { live_chat_continuation :=
               { continuations := [contTimedOnly], actions := none } } }

/-- A replay page with a replay descriptor and one wrapped action. -/
def replayPage : GetLiveChatResponse :=
  { continuation_contents :=
      some { live_chat_continuation :=
               { continuations := [contReplay], actions := some [sampleReplayAction] } } }

/-- A replay page whose action list is absent (exhausted continuation). -/
def replayEndPage : GetLiveChatResponse :=
  { continuation_contents :=
      some { live_chat_continuation :=
               { continuations := [contReplay], actions := none } } }

/-- The message `sampleAction` materializes to. -/
def sampleMsg : ChatMessage :=
  { runs := [{ segment := "hello" }],
    is_super := false,
    author := { display_name := "Alice", id := "UC123", avatar := "big.png" },
    timestamp := 1234,
    time_delta := none }

/-- A watch-page scan where neither the live nor the replay marker
matched (everything else present). -/
def scanNeither : PageScan :=
  { live_now := false, is_replay := false, api_key := some "k",
    client_version := some "2.0", live_continuation := some "lc",
    replay_continuation := some "rc" }

/-- A mid-stream processor state with a pending continuation token. -/
def pInit : YouTubeChatPageProcessor :=
  { actions := [], continuation_token := some "tok0", signaler_topic := some "topic-0" }

/-! ### Helper lemmas -/

theorem innerEligible_eligible {x : ReplayInnerAction} {add : AddChatItemAction}
    (h : innerEligible x = some add) : eligibleSelect add = true := by
  unfold innerEligible at h
  cases hx : x.add_chat_item_action with
  | none => rw [hx] at h; exact absurd h (by simp)
  | some b =>
    rw [hx] at h
    by_cases hel : eligibleSelect b = true
    · simp [hel] at h
      subst h
      exact hel
    · simp [hel] at h

theorem findFirstEligible_append (pre : List ReplayInnerAction)
    (e : ReplayInnerAction) (post : List ReplayInnerAction) (add : AddChatItemAction)
    (hpre : ∀ x ∈ pre, innerEligible x = none) (he : innerEligible e = some add) :
    findFirstEligible (pre ++ e :: post) = some add := by
  induction pre with
  | nil => simp [findFirstEligible, he]
  | cons x xs ih =>
    have hx := hpre x (by simp)
    simpa [findFirstEligible, hx] using ih (fun y hy => hpre y (by simp [hy]))

theorem materialize_eq (add : AddChatItemAction) (rd : LiveChatTextMessageRenderer)
    (body : MessageBody) (th : Thumbnail) (delta : Option Int)
    (hsel : selectedRenderer add = some rd)
    (hmsg : rd.message = some body)
    (hth : rd.message_renderer_base.author_photo.thumbnails.getLast? = some th) :
    materialize add delta = some
      { runs := body.runs,
        is_super := add.item.live_chat_paid_message_renderer.isSome,
        author := { display_name :=
                      (rd.message_renderer_base.author_name.map
                        AuthorName.simple_text).getD
                        rd.message_renderer_base.author_external_channel_id,
                    id := rd.message_renderer_base.author_external_channel_id,
                    avatar := th.url },
        timestamp := rd.message_renderer_base.timestamp_usec.timestamp_millis,
        time_delta := delta } := by
  simp [materialize, hsel, hmsg, hth]

theorem drainAll_not_err (l : List Action) :
    drainAll l = .panic ∨ ∃ ms, drainAll l = .ok ms := by
  induction l with
  | nil => exact Or.inr ⟨[], rfl⟩
  | cons a rest ih =>
    cases hsa : selectAction a with
    | none => simpa [drainAll, hsa] using ih
    | some p =>
      obtain ⟨add, delta⟩ := p
      cases hm : materialize add delta with
      | none => exact Or.inl (by simp [drainAll, hsa, hm])
      | some m =>
        rcases ih with hpanic | ⟨ms, hok⟩
        · exact Or.inl (by simp [drainAll, hsa, hm, hpanic])
        · exact Or.inr ⟨m :: ms, by simp [drainAll, hsa, hm, hok]⟩

/-! ### Claims -/

/-- Claim C1, counterexample: a live session whose single continuation
fetch fails with `TimedOut` produces the output sequence
`[Ok sampleMsg]` — the final item is the page-1 message, not the
failure; the error is never yielded. -/
theorem stream_cont_failure_concrete :
    streamModel optsLive (Except.ok livePage) [Except.error YouTubeError.timedOut]
      = RunResult.ok [Except.ok sampleMsg]
    ∧ [Except.ok (ε := YouTubeError) sampleMsg].getLast?
        ≠ some (Except.error YouTubeError.timedOut) :=
  ⟨rfl, by simp⟩

/-- Claim C1 (amended): when fetching the next page fails, or the fetched
page fails to decode, the stream logs the failure and terminates
immediately — yielding no further item (in particular not the failure)
and attempting no further pages (the rest of the script is never
consumed). -/
theorem stream_cont_failure_silent (opts : RequestOptions)
    (p : YouTubeChatPageProcessor) (t : String)
    (fs : List (Except YouTubeError GetLiveChatResponse))
    (htok : p.continuation_token = some t) :
    (∀ e : YouTubeError, streamLoop opts p (Except.error e :: fs) = .ok [])
    ∧ (∀ (page : GetLiveChatResponse) (e : YouTubeError),
        pageProcessorNew page opts = .err e →
        streamLoop opts p (Except.ok page :: fs) = .ok []) := by
  constructor
  · intro e; simp [streamLoop, contModel, htok]
  · intro page e h; simp [streamLoop, contModel, htok, h]

/-- Witness for C1's amended theorem at a concrete session state. -/
theorem stream_cont_failure_silent_witness :
    streamLoop optsLive pInit [Except.error YouTubeError.timedOut] = .ok [] :=
  (stream_cont_failure_silent optsLive pInit "tok0" [] rfl).1 YouTubeError.timedOut

/-- Claim C2, counterexample: a replay session (isLive=false) whose
initial page is a well-formed replay page makes `stream` panic while
unwrapping the absent invalidation descriptor — it emits no message
and does not terminate cleanly. -/
theorem stream_replay_session_panics :
    streamModel optsReplay (Except.ok replayPage) [] = RunResult.panic := rfl

/-- Claim C2 (amended): `stream` supports only pages carrying an
invalidation continuation descriptor — for any initial page without
one (as every replay page is), it panics during push-topic extraction
before yielding anything.  At the page-processor level an absent
continuation token does make `cont` return `None` (ordinary
completion, not an error). -/
theorem stream_requires_invalidation (opts : RequestOptions)
    (page : GetLiveChatResponse) (cc : ContinuationContents)
    (c : Continuation) (cs : List Continuation)
    (script : List (Except YouTubeError GetLiveChatResponse))
    (hcc : page.continuation_contents = some cc)
    (hcs : cc.live_chat_continuation.continuations = c :: cs)
    (hinv : c.invalidation_continuation_data = none) :
    streamModel opts (Except.ok page) script = RunResult.panic
    ∧ ∀ (p : YouTubeChatPageProcessor) (f : Except YouTubeError GetLiveChatResponse),
        p.continuation_token = none → contModel p opts f = none := by
  constructor
  · simp [streamModel, hcc, hcs, hinv]
  · intro p f h; simp [contModel, h]

/-- Witness for C2's amended theorem at a concrete replay page. -/
theorem stream_requires_invalidation_witness :
    streamModel optsReplay (Except.ok replayEndPage) [] = RunResult.panic :=
  (stream_requires_invalidation optsReplay replayEndPage _ contReplay [] [] rfl rfl rfl).1

/-- Claim C3 (confirmed): for a live-mode page the decoder prefers the
invalidation continuation's token (also when both descriptors are
present), falls back to the timed continuation's token when the
invalidation descriptor is absent, and fails with
`MissingContinuationContents` when `continuation_contents` itself is
missing. -/
theorem new_live_token_preference (opts : RequestOptions)
    (resp : GetLiveChatResponse) (hlive : opts.live_status = true) :
    (resp.continuation_contents = none →
       pageProcessorNew resp opts = .err .missingContinuationContents)
    ∧ (∀ (cc : ContinuationContents) (c : Continuation) (cs : List Continuation)
         (inv : InvalidationContinuationData),
         resp.continuation_contents = some cc →
         cc.live_chat_continuation.continuations = c :: cs →
         c.invalidation_continuation_data = some inv →
         ∃ p, pageProcessorNew resp opts = .ok p
            ∧ p.continuation_token = some inv.continuation)
    ∧ (∀ (cc : ContinuationContents) (c : Continuation) (cs : List Continuation)
         (td : TimedContinuationData),
         resp.continuation_contents = some cc →
         cc.live_chat_continuation.continuations = c :: cs →
         c.invalidation_continuation_data = none →
         c.timed_continuation_data = some td →
         ∃ p, pageProcessorNew resp opts = .ok p
            ∧ p.continuation_token = some td.continuation) := by
  refine ⟨fun h => by simp [pageProcessorNew, hlive, h], ?_, ?_⟩
  · intro cc c cs inv hcc hcs hinv
    exact ⟨{ actions := cc.live_chat_continuation.actions.getD [],
             continuation_token := some inv.continuation,
             signaler_topic := some inv.invalidation_id.topic },
           by simp [pageProcessorNew, hlive, hcc, hcs, hinv], rfl⟩
  · intro cc c cs td hcc hcs hinv htd
    exact ⟨{ actions := cc.live_chat_continuation.actions.getD [],
             continuation_token := some td.continuation,
             signaler_topic := none },
           by simp [pageProcessorNew, hlive, hcc, hcs, hinv, htd], rfl⟩

/-- Witness for C3 at a live page carrying both descriptors: the
invalidation token wins. -/
theorem new_live_token_preference_witness :
    ∃ p, pageProcessorNew livePage optsLive = .ok p
       ∧ p.continuation_token = some "inv-token" :=
  (new_live_token_preference optsLive livePage rfl).2.1 _ contBoth [] sampleInv rfl rfl rfl

/-- Claim C4 (confirmed): an absent action list is handled
mode-dependently — a live page decodes to a processor with an empty
queue, a replay page fails with `EndOfContinuation`. -/
theorem new_missing_actions_mode (opts : RequestOptions)
    (resp : GetLiveChatResponse) (cc : ContinuationContents)
    (c : Continuation) (cs : List Continuation)
    (hcc : resp.continuation_contents = some cc)
    (hcs : cc.live_chat_continuation.continuations = c :: cs)
    (hact : cc.live_chat_continuation.actions = none) :
    (opts.live_status = true →
       ∃ p, pageProcessorNew resp opts = .ok p ∧ p.actions = [])
    ∧ (opts.live_status = false →
       pageProcessorNew resp opts = .err .endOfContinuation) := by
  constructor
  · intro hlive
    refine ⟨{ actions := cc.live_chat_continuation.actions.getD [],
              continuation_token :=
                match c.invalidation_continuation_data with
                | some inv => some inv.continuation
                | none =>
                  match c.timed_continuation_data with
                  | some td => some td.continuation
                  | none => none,
              signaler_topic :=
                match c.invalidation_continuation_data with
                | some inv => some inv.invalidation_id.topic
                | none => none }, ?_, ?_⟩
    · simp [pageProcessorNew, hlive, hcc, hcs]
    · simp [hact]
  · intro hreplay
    simp [pageProcessorNew, hreplay, hcc, hcs, hact]

/-- Witness for C4 at one action-less live page and one action-less
replay page. -/
theorem new_missing_actions_mode_witness :
    (∃ p, pageProcessorNew timedPage optsLive = .ok p ∧ p.actions = [])
    ∧ pageProcessorNew replayEndPage optsReplay = .err .endOfContinuation :=
  ⟨(new_missing_actions_mode optsLive timedPage _ contTimedOnly [] rfl rfl rfl).1 rfl,
   (new_missing_actions_mode optsReplay replayEndPage _ contReplay [] rfl rfl rfl).2 rfl⟩

/-- Claim C5 (confirmed): dequeuing a replay wrapper retains only the
first inner add-item action passing the eligibility filter — the rest
of the batch is dropped with the wrapper (the queue advances past the
whole wrapper) — and the produced message carries the wrapper's video
offset as its time delta.  (The author's thumbnail list must be
non-empty for materialization to be defined; see the avatar claim.) -/
theorem next_replay_first_eligible (a : Action) (r : ReplayChatItemAction)
    (rest : List Action) (pre post : List ReplayInnerAction)
    (e : ReplayInnerAction) (add : AddChatItemAction)
    (rd : LiveChatTextMessageRenderer) (th : Thumbnail)
    (hr : a.replay_chat_item_action = some r)
    (hacts : r.actions = pre ++ e :: post)
    (hpre : ∀ x ∈ pre, innerEligible x = none)
    (he : innerEligible e = some add)
    (hsel : selectedRenderer add = some rd)
    (hth : rd.message_renderer_base.author_photo.thumbnails.getLast? = some th) :
    ∃ m, processorNext (a :: rest) = .ok (some (m, rest))
       ∧ m.time_delta = some r.video_offset_time_msec := by
  have helig : eligibleSelect add = true := innerEligible_eligible he
  have hmsg : rd.message.isSome := by
    have := helig
    unfold eligibleSelect at this
    rwa [hsel] at this
  obtain ⟨body, hbody⟩ := Option.isSome_iff_exists.mp hmsg
  have hfind : findFirstEligible r.actions = some add := by
    rw [hacts]; exact findFirstEligible_append pre e post add hpre he
  have hsa : selectAction a = some (add, some r.video_offset_time_msec) := by
    simp [selectAction, hr, hfind]
  have hmat := materialize_eq add rd body th (some r.video_offset_time_msec) hsel hbody hth
  exact ⟨{ runs := body.runs,
           is_super := add.item.live_chat_paid_message_renderer.isSome,
           author := { display_name :=
                         (rd.message_renderer_base.author_name.map
                           AuthorName.simple_text).getD
                           rd.message_renderer_base.author_external_channel_id,
                       id := rd.message_renderer_base.author_external_channel_id,
                       avatar := th.url },
           timestamp := rd.message_renderer_base.timestamp_usec.timestamp_millis,
           time_delta := some r.video_offset_time_msec },
         by simp [processorNext, hsa, hmat], rfl⟩

/-- Witness for C5: a wrapper with one ineligible inner action followed
by two eligible ones yields exactly one message, tagged offset 777, and
the queue moves on past the wrapper. -/
theorem next_replay_first_eligible_witness :
    ∃ m, processorNext [sampleReplayAction, sampleAction]
        = .ok (some (m, [sampleAction]))
       ∧ m.time_delta = some 777 :=
  next_replay_first_eligible sampleReplayAction _ [sampleAction]
    [{ add_chat_item_action := some noRunsAdd }]
    [{ add_chat_item_action := some samplePaidAdd }]
    { add_chat_item_action := some sampleAdd } sampleAdd sampleTextRenderer
    { url := "big.png" } rfl rfl (by decide) rfl rfl rfl

/-- Claim C6 (confirmed): the bootstrapper checks the live marker first
(a match forces `isLive=true` regardless of the replay marker), then
the replay marker (`isLive=false`), and fails with `NotStream` when
neither matches. -/
theorem bootstrap_marker_order (live_id : String) (scan : PageScan) :
    (scan.live_now = true →
       ∀ (o : RequestOptions) (c : String),
         get_options_from_live_page live_id scan = .ok (o, c) →
         o.live_status = true)
    ∧ (scan.live_now = false → scan.is_replay = true →
       ∀ (o : RequestOptions) (c : String),
         get_options_from_live_page live_id scan = .ok (o, c) →
         o.live_status = false)
    ∧ (scan.live_now = false → scan.is_replay = false →
       get_options_from_live_page live_id scan = .error (.notStream live_id)) := by
  obtain ⟨ln, ir, ak, cv, lc, rc⟩ := scan
  refine ⟨?_, ?_, ?_⟩
  · intro h o c hok
    obtain rfl : ln = true := h
    cases ak with
    | none => simp [get_options_from_live_page] at hok
    | some k =>
      cases lc with
      | none => simp [get_options_from_live_page] at hok
      | some l =>
        simp [get_options_from_live_page] at hok
        obtain ⟨ho, -⟩ := hok
        rw [← ho]
  · intro h1 h2 o c hok
    obtain rfl : ln = false := h1
    obtain rfl : ir = true := h2
    cases ak with
    | none => simp [get_options_from_live_page] at hok
    | some k =>
      cases rc with
      | none => simp [get_options_from_live_page] at hok
      | some rr =>
        simp [get_options_from_live_page] at hok
        obtain ⟨ho, -⟩ := hok
        rw [← ho]
  · intro h1 h2
    obtain rfl : ln = false := h1
    obtain rfl : ir = false := h2
    simp [get_options_from_live_page]

/-- Witness for C6: a page matching neither marker fails with
`NotStream`. -/
theorem bootstrap_marker_order_witness :
    get_options_from_live_page "vid" scanNeither
      = Except.error (YouTubeError.notStream "vid") :=
  (bootstrap_marker_order "vid" scanNeither).2.2 rfl rfl

/-- Claim C7 (confirmed): an action that selects no eligible item — a
direct add-item action whose renderer chain yields no present runs (or
no recognized renderer at all), or a replay wrapper none of whose inner
actions is eligible — is silently discarded: dequeuing proceeds on the
rest of the queue exactly as if the action were absent, with no message
and no error. -/
theorem next_discards_ineligible (a : Action) (rest : List Action) :
    (a.replay_chat_item_action = none → directEligible a = none →
       processorNext (a :: rest) = processorNext rest)
    ∧ (∀ r : ReplayChatItemAction, a.replay_chat_item_action = some r →
       findFirstEligible r.actions = none →
       processorNext (a :: rest) = processorNext rest) := by
  constructor
  · intro h1 h2; simp [processorNext, selectAction, h1, h2]
  · intro r h1 h2; simp [processorNext, selectAction, h1, h2]

/-- Witness for C7: a no-runs action in front of an eligible one is
skipped. -/
theorem next_discards_ineligible_witness :
    processorNext [noRunsAction, sampleAction] = processorNext [sampleAction] :=
  (next_discards_ineligible noRunsAction [sampleAction]).1 rfl rfl

/-- Claim C8 (confirmed): a direct add-item action whose item is the
paid-message renderer (wrapping a plain-text renderer with present
runs) dequeues to a `ChatMessage` with `is_super = true`,
`time_delta = none`, and display name equal to the author's simple-text
name when present, else the author channel id.  (Thumbnail list
non-empty, per the avatar claim's precondition.) -/
theorem next_paid_direct (a : Action) (rest : List Action)
    (add : AddChatItemAction) (pr : LiveChatPaidMessageRenderer)
    (body : MessageBody) (th : Thumbnail)
    (hrep : a.replay_chat_item_action = none)
    (hadd : a.add_chat_item_action = some add)
    (htext : add.item.live_chat_text_message_renderer = none)
    (hpaid : add.item.live_chat_paid_message_renderer = some pr)
    (hmsg : pr.live_chat_text_message_renderer.message = some body)
    (hth : pr.live_chat_text_message_renderer.message_renderer_base.author_photo.thumbnails.getLast?
             = some th) :
    ∃ m, processorNext (a :: rest) = .ok (some (m, rest))
       ∧ m.is_super = true ∧ m.time_delta = none
       ∧ m.author.display_name =
           (pr.live_chat_text_message_renderer.message_renderer_base.author_name.map
             AuthorName.simple_text).getD
             pr.live_chat_text_message_renderer.message_renderer_base.author_external_channel_id := by
  have hsel : selectedRenderer add = some pr.live_chat_text_message_renderer := by
    simp [selectedRenderer, htext, hpaid]
  have helig : eligibleSelect add = true := by
    simp [eligibleSelect, hsel, hmsg]
  have hde : directEligible a = some add := by
    simp [directEligible, hadd, helig]
  have hsa : selectAction a = some (add, none) := by
    simp [selectAction, hrep, hde]
  have hmat := materialize_eq add pr.live_chat_text_message_renderer body th none hsel hmsg hth
  refine ⟨{ runs := body.runs,
            is_super := add.item.live_chat_paid_message_renderer.isSome,
            author := { display_name :=
                          (pr.live_chat_text_message_renderer.message_renderer_base.author_name.map
                            AuthorName.simple_text).getD
                            pr.live_chat_text_message_renderer.message_renderer_base.author_external_channel_id,
                        id := pr.live_chat_text_message_renderer.message_renderer_base.author_external_channel_id,
                        avatar := th.url },
            timestamp := pr.live_chat_text_message_renderer.message_renderer_base.timestamp_usec.timestamp_millis,
            time_delta := none },
          by simp [processorNext, hsa, hmat], ?_, rfl, rfl⟩
  simp [hpaid]

/-- Witness for C8 at a concrete paid message. -/
theorem next_paid_direct_witness :
    ∃ m, processorNext [samplePaidAction] = .ok (some (m, []))
       ∧ m.is_super = true ∧ m.time_delta = none
       ∧ m.author.display_name = "Alice" :=
  next_paid_direct samplePaidAction [] samplePaidAdd
    { live_chat_text_message_renderer := sampleTextRenderer }
    { runs := [{ segment := "hello" }] } { url := "big.png" }
    rfl rfl rfl rfl rfl rfl

/-- Claim C9 (confirmed): in the live streaming loop, after successfully
fetching and draining a continuation page whose only continuation
descriptor is the timed fallback (no invalidation descriptor, hence
`signaler_topic = None`), the topic-refresh step's `unwrap` panics —
the refresh is total only when every fetched live page carries an
invalidation descriptor. -/
theorem stream_refresh_panics_on_timed_page (opts : RequestOptions)
    (p : YouTubeChatPageProcessor) (t : String)
    (page : GetLiveChatResponse) (cc : ContinuationContents)
    (c : Continuation) (cs : List Continuation) (td : TimedContinuationData)
    (fs : List (Except YouTubeError GetLiveChatResponse))
    (hlive : opts.live_status = true)
    (htok : p.continuation_token = some t)
    (hcc : page.continuation_contents = some cc)
    (hcs : cc.live_chat_continuation.continuations = c :: cs)
    (hinv : c.invalidation_continuation_data = none)
    (htd : c.timed_continuation_data = some td) :
    streamLoop opts p (Except.ok page :: fs) = RunResult.panic := by
  have hnew : pageProcessorNew page opts
      = .ok { actions := cc.live_chat_continuation.actions.getD [],
              continuation_token := some td.continuation,
              signaler_topic := none } := by
    simp [pageProcessorNew, hlive, hcc, hcs, hinv, htd]
  rcases drainAll_not_err (cc.live_chat_continuation.actions.getD []) with hd | ⟨ms, hd⟩ <;>
    simp [streamLoop, contModel, htok, hnew, hd]

/-- Witness for C9 at a concrete timed-only page. -/
theorem stream_refresh_panics_on_timed_page_witness :
    streamLoop optsLive pInit [Except.ok timedPage] = RunResult.panic :=
  stream_refresh_panics_on_timed_page optsLive pInit "tok0" timedPage _
    contTimedOnly [] sampleTimed [] rfl rfl rfl rfl rfl rfl

/-- Claim C10 (confirmed): the avatar of a dequeued message is the URL
of the *last* entry of the author's thumbnail list, and the indexing is
partial — on an empty thumbnail list the dequeue panics (out-of-bounds
`thumbnails[len - 1]`) instead of returning an error, so totality needs
every eligible item's thumbnail list to be non-empty. -/
theorem next_avatar_last_thumbnail (a : Action) (rest : List Action)
    (add : AddChatItemAction) (rd : LiveChatTextMessageRenderer)
    (body : MessageBody)
    (hrep : a.replay_chat_item_action = none)
    (hadd : a.add_chat_item_action = some add)
    (hsel : selectedRenderer add = some rd)
    (hmsg : rd.message = some body) :
    (rd.message_renderer_base.author_photo.thumbnails = [] →
       processorNext (a :: rest) = RunResult.panic)
    ∧ (∀ th : Thumbnail,
         rd.message_renderer_base.author_photo.thumbnails.getLast? = some th →
         ∃ m, processorNext (a :: rest) = .ok (some (m, rest))
            ∧ m.author.avatar = th.url) := by
  have helig : eligibleSelect add = true := by
    simp [eligibleSelect, hsel, hmsg]
  have hde : directEligible a = some add := by
    simp [directEligible, hadd, helig]
  have hsa : selectAction a = some (add, none) := by
    simp [selectAction, hrep, hde]
  constructor
  · intro hempty
    have hmat : materialize add none = none := by
      simp [materialize, hsel, hmsg, hempty]
    simp [processorNext, hsa, hmat]
  · intro th hth
    have hmat := materialize_eq add rd body th none hsel hmsg hth
    exact ⟨{ runs := body.runs,
             is_super := add.item.live_chat_paid_message_renderer.isSome,
             author := { display_name :=
                           (rd.message_renderer_base.author_name.map
                             AuthorName.simple_text).getD
                             rd.message_renderer_base.author_external_channel_id,
                         id := rd.message_renderer_base.author_external_channel_id,
                         avatar := th.url },
             timestamp := rd.message_renderer_base.timestamp_usec.timestamp_millis,
             time_delta := none },
           by simp [processorNext, hsa, hmat], rfl⟩

/-- Witness for C10: an eligible item with no thumbnails panics; one
with thumbnails gets the last thumbnail's URL as its avatar. -/
theorem next_avatar_last_thumbnail_witness :
    processorNext [noThumbAction] = RunResult.panic
    ∧ ∃ m, processorNext [sampleAction] = .ok (some (m, []))
         ∧ m.author.avatar = "big.png" :=
  ⟨(next_avatar_last_thumbnail noThumbAction [] noThumbAdd _
      { runs := [{ segment := "hi" }] } rfl rfl rfl rfl).1 rfl,
   (next_avatar_last_thumbnail sampleAction [] sampleAdd sampleTextRenderer
      { runs := [{ segment := "hello" }] } rfl rfl rfl rfl).2
     { url := "big.png" } rfl⟩

end Brainrot
